import Mathlib

/-!
Verification of the brain-indexer geometric core.

Shallow embedding of the C++ sources under `src/include/spatial_index/`:
`point3d.hpp`, `detail/geometries.hpp`, `index.hpp`, `detail/index_grid.hpp`
and `detail/distributed_sort_tile_recursion.hpp`.

Modelling conventions:
* `CoordType` (a build-time choice of `float` or `double`) is modelled as `ℚ`,
  i.e. exact real arithmetic on representable inputs; numeric literals such as
  `1e-6` are the corresponding exact rationals.
* every comparison of a Euclidean norm `sqrt e ≤ r` in the source is embedded
  in the equivalent square-free form `0 ≤ r ∧ e ≤ r²` (for `e ≥ 0`), so that
  all definitions stay computable over `ℚ`; each such step is documented at
  the definition it concerns.
* machine integers (`identifier_t = unsigned long`, i.e. 64 bits, and
  `unsigned`, 32 bits) are naturals with explicit `< 2^64` / `< 2^32` bounds
  where they matter.
-/

namespace SpatialIndex

/-- Embedding of `Point3D` / `Point3Dx` (point3d.hpp): an ordered triple of
coordinates, with `CoordType` modelled as `ℚ`. -/
structure Pt where
  x : ℚ
  y : ℚ
  z : ℚ
deriving DecidableEq

/-- Componentwise addition (`bg::add_point`). -/
def Pt.add (p q : Pt) : Pt := ⟨p.x + q.x, p.y + q.y, p.z + q.z⟩

/-- Componentwise subtraction (`bg::subtract_point`). -/
def Pt.sub (p q : Pt) : Pt := ⟨p.x - q.x, p.y - q.y, p.z - q.z⟩

/-- Scalar multiplication (`bg::multiply_value`). -/
def Pt.smul (a : ℚ) (p : Pt) : Pt := ⟨a * p.x, a * p.y, a * p.z⟩

/-- Embedding of `Point3Dx::dot`. -/
def Pt.dot (p q : Pt) : ℚ := p.x * q.x + p.y * q.y + p.z * q.z

/-- Embedding of `Point3Dx::norm_sq`. -/
def Pt.norm_sq (p : Pt) : ℚ := p.x * p.x + p.y * p.y + p.z * p.z

/-- Embedding of `Point3Dx::dist_sq`: squared distance `‖p − b‖²`. -/
def Pt.dist_sq (p b : Pt) : ℚ := (p.sub b).norm_sq

/-- Embedding of `Point3Dx::operator==` (point3d.hpp:149-153):
`if (dist2 == 0) return true; return dist2 < norm_sq() * 1e-8;`.
Note that `norm_sq()` is the squared norm of the left operand `*this`. -/
def pointEq (p q : Pt) : Bool :=
  if p.dist_sq q = 0 then true
  else decide (p.dist_sq q < p.norm_sq * (1 / 10 ^ 8))

/-- Embedding of `Sphere` ({centroid, radius}). -/
structure Sphere where
  centroid : Pt
  radius : ℚ
deriving DecidableEq

/-- Embedding of `Cylinder` ({p1, p2, radius}). -/
structure Cylinder where
  p1 : Pt
  p2 : Pt
  radius : ℚ
deriving DecidableEq

/-- Embedding of `Sphere::contains` (detail/geometries.hpp:179-182):
`‖p − centroid‖² ≤ radius²`. -/
def Sphere.contains (s : Sphere) (p : Pt) : Bool :=
  decide ((p.sub s.centroid).norm_sq ≤ s.radius * s.radius)

/-- Embedding of `Cylinder::contains` (detail/geometries.hpp:191-206), the
flat-capped point-in-cylinder test. -/
def Cylinder.contains (c : Cylinder) (p : Pt) : Bool :=
  let cyl_axis := c.p2.sub c.p1
  let p1_ptest := p.sub c.p1
  let dot_prod := p1_ptest.dot cyl_axis
  let axis_len_sq := cyl_axis.norm_sq
  if dot_prod < 0 ∨ dot_prod > axis_len_sq then false
  else decide (p1_ptest.norm_sq - dot_prod * dot_prod / axis_len_sq ≤ c.radius * c.radius)

/-- Embedding of `detail::distance_segment_segment`
(detail/geometries.hpp:13-80), except that it returns the SQUARE of the
returned distance: the source ends with `return dP.norm();` and every caller
only compares that norm against a sum of radii, so we keep `dP.norm_sq`
(the step `sc, tc` and `dP` computations are otherwise verbatim). -/
def distance_segment_segment_sq (s1_0 s1_1 s2_0 s2_1 : Pt) : ℚ :=
  let u := s1_1.sub s1_0
  let v := s2_1.sub s2_0
  let w := s1_0.sub s2_0
  let a := u.dot u
  let b := u.dot v
  let c := v.dot v
  let d := u.dot w
  let e := v.dot w
  let D := a * c - b * b
  let EPSILON : ℚ := 1 / 10 ^ 6
  -- compute the line parameters of the two closest points
  let st1 : ℚ × ℚ × ℚ × ℚ :=
    if D < EPSILON then (0, 1, e, c)
    else
      let sN := b * e - c * d
      let tN := a * e - b * d
      if sN < 0 then (0, D, e, c)
      else if sN > D then (D, D, e + b, c)
      else (sN, D, tN, D)
  let sN := st1.1
  let sD := st1.2.1
  let tN := st1.2.2.1
  let tD := st1.2.2.2
  let st2 : ℚ × ℚ × ℚ × ℚ :=
    if tN < 0 then
      if -d < 0 then (0, sD, 0, tD)
      else if -d > a then (sD, sD, 0, tD)
      else (-d, a, 0, tD)
    else if tN > tD then
      if -d + b < 0 then (0, sD, tD, tD)
      else if -d + b > a then (sD, sD, tD, tD)
      else (-d + b, a, tD, tD)
    else (sN, sD, tN, tD)
  let sN := st2.1
  let sD := st2.2.1
  let tN := st2.2.2.1
  let tD := st2.2.2.2
  -- finally do the division to get sc and tc
  let sc := if |sN| < EPSILON then 0 else sN / sD
  let tc := if |tN| < EPSILON then 0 else tN / tD
  -- get the difference of the two closest points: dP = w + (sc * u) - (tc * v)
  let dP := (w.add (Pt.smul sc u)).sub (Pt.smul tc v)
  dP.norm_sq

/-- Embedding of `Cylinder::intersects(Cylinder)` (detail/geometries.hpp:185-188):
`min_dist ≤ radius + c.radius` with `min_dist = distance_segment_segment(...)`.
Square-free form: `sqrt e ≤ r` iff `0 ≤ r ∧ e ≤ r²`. -/
def Cylinder.intersectsCyl (c1 c2 : Cylinder) : Bool :=
  let rsum := c1.radius + c2.radius
  decide (0 ≤ rsum) &&
    decide (distance_segment_segment_sq c1.p1 c1.p2 c2.p1 c2.p2 ≤ rsum * rsum)

/-- The local `v = c.p2 - c.p1` of `Sphere::intersects(Cylinder)`. -/
def sphCylV (c : Cylinder) : Pt := c.p2.sub c.p1

/-- The local `u = centroid - c.p1` of `Sphere::intersects(Cylinder)`. -/
def sphCylU (s : Sphere) (c : Cylinder) : Pt := s.centroid.sub c.p1

/-- The local `v_dot_u = v.dot(u)` of `Sphere::intersects(Cylinder)`. -/
def sphCylVdotU (s : Sphere) (c : Cylinder) : ℚ := (sphCylV c).dot (sphCylU s c)

/-- The local `v_dot_v = v.norm_sq()` of `Sphere::intersects(Cylinder)`. -/
def sphCylVdotV (c : Cylinder) : ℚ := (sphCylV c).norm_sq

/-- The local `closer_cap = (v_dot_u < 0 ? c.p1 : c.p2)` of
`Sphere::intersects(Cylinder)`. -/
def sphCylCloserCap (s : Sphere) (c : Cylinder) : Pt :=
  if sphCylVdotU s c < 0 then c.p1 else c.p2

/-- The local `p = c.p1 + (v_dot_u / v_dot_v) * v` of
`Sphere::intersects(Cylinder)` (foot of the sphere center on the axis). -/
def sphCylFoot (s : Sphere) (c : Cylinder) : Pt :=
  c.p1.add (Pt.smul (sphCylVdotU s c / sphCylVdotV c) (sphCylV c))

/-- The local `d = centroid - p` of `Sphere::intersects(Cylinder)`. -/
def sphCylD (s : Sphere) (c : Cylinder) : Pt := s.centroid.sub (sphCylFoot s c)

/-- Square-free embedding of the cap-projection branch of
`Sphere::intersects(Cylinder)` (detail/geometries.hpp:152-176), reached when
`d_norm ≥ 100·ε`. Derivation of the square-free form, writing
`cc_sq = ‖centroid − closer_cap‖²`, `dsq = ‖d‖²`, `rc = c.radius`,
`r = radius`, and using that `d` is orthogonal to the axis so that
`(centroid − closer_cap)·d = ‖d‖²`:
the source point is `project_point_onto_segment(closer_cap − d·(rc/‖d‖),
d·(2rc/‖d‖), centroid)`, whose clamp parameter is
`x_rel = clamp(1/2 + ‖d‖/(2rc), 0, 1)`, so the projected point is
`closer_cap + (μ/‖d‖)·d` with `μ = min(‖d‖, rc)` (for the data-model invariant
`rc ≥ 0`; for `rc = 0` both the source and this form yield `closer_cap`).
The accept test `‖centroid − point‖² ≤ r²` expands to
`cc_sq − 2μ‖d‖ + μ² ≤ r²`:
* for `‖d‖ ≤ rc` (i.e. `dsq ≤ rc²`) that is `cc_sq − dsq ≤ r²`;
* otherwise it is `cc_sq + rc² − r² ≤ 2rc‖d‖`, and comparing a rational `A`
  with `2rc·sqrt dsq ≥ 0` is `A ≤ 0 ∨ A² ≤ 4rc²·dsq`. -/
def projCapAccept (cc_sq dsq rc r : ℚ) : Bool :=
  if dsq ≤ rc * rc then decide (cc_sq - dsq ≤ r * r)
  else
    let A := cc_sq + rc * rc - r * r
    decide (A ≤ 0) || decide (A * A ≤ 4 * (rc * rc) * dsq)

/-- Embedding of `Sphere::intersects(Cylinder)` (detail/geometries.hpp:118-177),
the sphere-capsule test, parameterized by the machine epsilon `eps`
(`std::numeric_limits<CoordType>::epsilon()`, positive). Square-free steps:
the guard `d_norm < 100·ε` becomes `‖d‖² < (100·ε)²` (both sides of the
source comparison are nonnegative for the machine `ε > 0`), and the
projection branch is `projCapAccept` (see its derivation). -/
def Sphere.intersectsCylinder (eps : ℚ) (s : Sphere) (c : Cylinder) : Bool :=
  if 0 ≤ sphCylVdotU s c ∧ sphCylVdotU s c ≤ sphCylVdotV c then
    -- treat the cylinder as if it had infinite length: squared distance from
    -- the axis via Pythagoras
    decide ((sphCylU s c).norm_sq -
        sphCylVdotU s c * sphCylVdotU s c / sphCylVdotV c ≤
      (s.radius + c.radius) * (s.radius + c.radius))
  else if (s.centroid.sub (sphCylCloserCap s c)).norm_sq >
      (s.radius + c.radius) * (s.radius + c.radius) then
    -- quick out if the capsule and sphere do not intersect
    false
  else if (sphCylD s c).norm_sq < (100 * eps) * (100 * eps) then
    -- the center of the sphere lies (numerically) on the axis: the closest
    -- cap point is the cap center itself
    decide ((s.centroid.sub (sphCylCloserCap s c)).norm_sq ≤ s.radius * s.radius)
  else
    projCapAccept ((s.centroid.sub (sphCylCloserCap s c)).norm_sq)
      ((sphCylD s c).norm_sq) c.radius s.radius

/-- Modelled from the spec: `Sphere::intersects(Sphere const&)` is declared in
`geometries.hpp`, which is not among the sources under src/. Per the spec
(data model: spheres are somas/synapse points; scenario S1; and the geometry
kernel being distance-based) the test is that the distance between centroids
does not exceed the sum of the radii, embedded square-free:
`0 ≤ r₁ + r₂ ∧ ‖c₁ − c₂‖² ≤ (r₁ + r₂)²`. -/
def Sphere.intersectsSphere (s1 s2 : Sphere) : Bool :=
  let rsum := s1.radius + s2.radius
  decide (0 ≤ rsum) &&
    decide ((s1.centroid.sub s2.centroid).norm_sq ≤ rsum * rsum)

/-- Embedding of the bare-geometry variant `GeometryEntry =
boost::variant<Sphere, Cylinder>` (index.hpp:334). -/
inductive GeometryEntry where
  | sph (s : Sphere)
  | cyl (c : Cylinder)
deriving DecidableEq

/-- Whether the variant holds a `Sphere`. -/
def GeometryEntry.isSph : GeometryEntry → Bool
  | .sph _ => true
  | .cyl _ => false

/-- Radius of the geometry held by the variant. -/
def GeometryEntry.radius : GeometryEntry → ℚ
  | .sph s => s.radius
  | .cyl c => c.radius

/-- Containment dispatch over the variant (`Sphere::contains` /
`Cylinder::contains`). -/
def GeometryEntry.containsPt : GeometryEntry → Pt → Bool
  | .sph s, p => s.contains p
  | .cyl c, p => c.contains p

/-- Dispatch of `A.intersects(B)` over the geometry variant.
`Sphere::intersects(Cylinder)` and `Cylinder::intersects(Cylinder)` are the
embeddings from detail/geometries.hpp. The remaining two cases are declared
in `geometries.hpp`, which is not among the sources under src/, and are
modelled from the spec: sphere-sphere is `Sphere.intersectsSphere` (see
there), and cylinder-sphere delegates to `Sphere::intersects(Cylinder)`,
which is what the spec's reflection-symmetry requirement for the kernel
prescribes. -/
def GeometryEntry.intersects (eps : ℚ) : GeometryEntry → GeometryEntry → Bool
  | .sph a, .sph b => a.intersectsSphere b
  | .sph a, .cyl b => a.intersectsCylinder eps b
  | .cyl a, .sph b => b.intersectsCylinder eps a
  | .cyl a, .cyl b => a.intersectsCyl b

/-!
Identifier packing, from index.hpp.
-/

/-- `N_SEGMENT_BITS` (index.hpp:35). -/
def N_SEGMENT_BITS : ℕ := 14

/-- `N_SECTION_BITS` (index.hpp:36). -/
def N_SECTION_BITS : ℕ := 14

/-- `N_TOTAL_BITS` (index.hpp:37). -/
def N_TOTAL_BITS : ℕ := N_SEGMENT_BITS + N_SECTION_BITS

/-- `N_GID_BITS = 64 - N_TOTAL_BITS` (index.hpp:38). -/
def N_GID_BITS : ℕ := 64 - N_TOTAL_BITS

/-- `mask_bits(n) = (1 << n) - 1` (index.hpp:40-43). -/
def mask_bits (n_bits : ℕ) : ℕ := (1 <<< n_bits) - 1

/-- `MASK_SEGMENT_BITS` (index.hpp:45). -/
def MASK_SEGMENT_BITS : ℕ := mask_bits N_SEGMENT_BITS

/-- `MASK_SECTION_BITS` (index.hpp:46). -/
def MASK_SECTION_BITS : ℕ := mask_bits N_SECTION_BITS <<< N_SEGMENT_BITS

/-- Embedding of `is_gid_safe` (index.hpp:137-139):
`(gid & ~mask_bits(N_GID_BITS)) == 0`, where the complement is taken on the
64-bit `identifier_t`, i.e. `~m = (2^64 − 1) − m`. -/
def is_gid_safe (gid : ℕ) : Bool :=
  gid &&& (mask_bits 64 - mask_bits N_GID_BITS) == 0

/-- Embedding of `is_section_id_safe` (index.hpp:141-143); the complement is
on the 32-bit `unsigned`. -/
def is_section_id_safe (section_id : ℕ) : Bool :=
  section_id &&& (mask_bits 32 - mask_bits N_SECTION_BITS) == 0

/-- Embedding of `is_segment_id_safe` (index.hpp:145-147). -/
def is_segment_id_safe (segment_id : ℕ) : Bool :=
  segment_id &&& (mask_bits 32 - mask_bits N_SEGMENT_BITS) == 0

/-- Embedding of `MorphPartId` (index.hpp:154-192): a `ShapeId` whose single
`id` field packs (gid, section_id, segment_id). -/
structure MorphPartId where
  id : ℕ
deriving DecidableEq

/-- Error kinds thrown by the `MorphPartId` constructor (index.hpp:163-174);
all three are the spec's `InvalidIdentifier` domain error. -/
inductive IdError where
  | invalidGid
  | invalidSectionId
  | invalidSegmentId
deriving DecidableEq

/-- Embedding of the `MorphPartId(gid, section_id, segment_id)` constructor
(index.hpp:160-175): the packed id is
`(gid << N_TOTAL_BITS) + (section_id << N_SEGMENT_BITS) + segment_id`, and
construction throws when any component fails its safety check (the thrown
object is modelled by `Except.error`; no `MorphPartId` value is produced in
that case). -/
def mkMorphPartId (gid section_id segment_id : ℕ) : Except IdError MorphPartId :=
  if is_gid_safe gid && is_section_id_safe section_id && is_segment_id_safe segment_id then
    .ok ⟨(gid <<< N_TOTAL_BITS) + (section_id <<< N_SEGMENT_BITS) + segment_id⟩
  else if !is_gid_safe gid then .error .invalidGid
  else if !is_section_id_safe section_id then .error .invalidSectionId
  else .error .invalidSegmentId

/-- Embedding of `MorphPartId::gid()` (index.hpp:181-183): `id >> N_TOTAL_BITS`. -/
def MorphPartId.gid (m : MorphPartId) : ℕ := m.id >>> N_TOTAL_BITS

/-- Embedding of `MorphPartId::segment_id()` (index.hpp:185-187):
`id & MASK_SEGMENT_BITS`. -/
def MorphPartId.segment_id (m : MorphPartId) : ℕ := m.id &&& MASK_SEGMENT_BITS

/-- Embedding of `MorphPartId::section_id()` (index.hpp:189-191):
`(id & MASK_SECTION_BITS) >> N_SEGMENT_BITS`. -/
def MorphPartId.section_id (m : MorphPartId) : ℕ :=
  (m.id &&& MASK_SECTION_BITS) >>> N_SEGMENT_BITS

/-- Embedding of `SynapseId` (index.hpp:100-135): a `ShapeId` plus
`post_gid_` and `pre_gid_` fields. -/
structure SynapseId where
  id : ℕ
  post_gid_ : ℕ
  pre_gid_ : ℕ
deriving DecidableEq

/-- Embedding of the `SynapseId(syn_id, post_gid = 0, pre_gid = 0)`
constructor (index.hpp:106-110) called with only `syn_id`, so both defaulted
arguments are 0. The constructor is `noexcept` and performs no checks, so
construction is total (never fails) for every `identifier_t` value. -/
def mkSynapseIdDefault (syn_id : ℕ) : SynapseId := ⟨syn_id, 0, 0⟩

/-- Embedding of `SynapseId::post_gid()` (index.hpp:118-120). -/
def SynapseId.post_gid (s : SynapseId) : ℕ := s.post_gid_

/-- Embedding of `SynapseId::pre_gid()` (index.hpp:122-124). -/
def SynapseId.pre_gid (s : SynapseId) : ℕ := s.pre_gid_

/-!
Serialization versioning, from index.hpp.
-/

/-- `SPATIAL_INDEX_STRUCT_VERSION` (index.hpp:26). -/
def SPATIAL_INDEX_STRUCT_VERSION : ℕ := 2

/-- The error thrown by `IndexedShape::serialize` when the archived version
is newer than the reader (the spec's `FutureFormat`). -/
inductive FormatError where
  | FutureFormat
deriving DecidableEq

/-- Embedding of `IndexedShape::serialize` (index.hpp:222-236) when driven by
a loading archive: boost::serialization passes the record's structure
`version`; the method throws (`FutureFormat`) iff
`version > SPATIAL_INDEX_STRUCT_VERSION`, otherwise it reads the id base
object and the shape base object. `Id` and `Shape` are the already-decoded
base payloads of the record. -/
def deserializeIndexedShape {Id Shape : Type} (version : ℕ)
    (idData : Id) (shapeData : Shape) : Except FormatError (Id × Shape) :=
  if version > SPATIAL_INDEX_STRUCT_VERSION then .error .FutureFormat
  else .ok (idData, shapeData)

/-!
Voxel grid, from detail/index_grid.hpp.
-/

/-- A voxel key: the `(i, j, k)` integer triple of `point2voxel`. -/
abbrev VoxelKey := ℤ × ℤ × ℤ

/-- Embedding of `point2voxel<VoxelLen>` (detail/index_grid.hpp:31-38):
componentwise `int(std::floor(coord / VoxelLen))`. -/
def point2voxel (voxelLen : ℕ) (p : Pt) : VoxelKey :=
  (⌊p.x / (voxelLen : ℚ)⌋, ⌊p.y / (voxelLen : ℚ)⌋, ⌊p.z / (voxelLen : ℚ)⌋)

/-- Soma payload of the `MorphoEntry` variant: a `MorphPartId`-identified
`Sphere` (index.hpp:252-259). -/
structure SomaQ where
  gid : ℕ
  geom : Sphere
deriving DecidableEq

/-- Segment payload of the `MorphoEntry` variant: a `MorphPartId`-identified
`Cylinder` (index.hpp:262-280). Only the fields the grid claims touch are
kept: the packed-id components are irrelevant to voxel placement. -/
structure SegmentQ where
  gid : ℕ
  segment_i : ℕ
  geom : Cylinder
deriving DecidableEq

/-- Embedding of `MorphoEntry = boost::variant<Soma, Segment>` (index.hpp:335). -/
inductive MorphoEntryQ where
  | soma (s : SomaQ)
  | seg (s : SegmentQ)
deriving DecidableEq

/-- Modelled from the spec: the `bounding_box()` member functions are declared
in `geometries.hpp`, which is not among the sources under src/. Per the spec
(Sphere = {centroid, radius}; Cylinder is a capsule for geometric purposes)
the axis-aligned bounding box is centroid ± radius for a sphere, and
componentwise min/max of the endpoints inflated by the radius for a
cylinder. -/
def MorphoEntryQ.bounding_box : MorphoEntryQ → Pt × Pt
  | .soma s =>
    (⟨s.geom.centroid.x - s.geom.radius, s.geom.centroid.y - s.geom.radius,
       s.geom.centroid.z - s.geom.radius⟩,
     ⟨s.geom.centroid.x + s.geom.radius, s.geom.centroid.y + s.geom.radius,
       s.geom.centroid.z + s.geom.radius⟩)
  | .seg s =>
    (⟨min s.geom.p1.x s.geom.p2.x - s.geom.radius,
       min s.geom.p1.y s.geom.p2.y - s.geom.radius,
       min s.geom.p1.z s.geom.p2.z - s.geom.radius⟩,
     ⟨max s.geom.p1.x s.geom.p2.x + s.geom.radius,
       max s.geom.p1.y s.geom.p2.y + s.geom.radius,
       max s.geom.p1.z s.geom.p2.z + s.geom.radius⟩)

/-- The grid state: the per-voxel ordered sequences
(`grid_ : unordered_map<key, vector<MorphoEntry>>`, empty lists standing for
absent keys). -/
def Grid := VoxelKey → List MorphoEntryQ

/-- The empty grid. -/
def emptyGrid : Grid := fun _ => []

/-- `grid_[k].push_back(e)`. -/
def gridAppend (g : Grid) (k : VoxelKey) (e : MorphoEntryQ) : Grid :=
  fun k2 => if k2 = k then g k ++ [e] else g k2

/-- Embedding of `GridPlacementHelper<MorphoEntry>::insert(const MorphoEntry&)`
(detail/index_grid.hpp:40-56): voxelize the bounding box corners, push under
the min-corner key, and also under the max-corner key if the keys differ. -/
def insertMorphoEntry (voxelLen : ℕ) (value : MorphoEntryQ) (g : Grid) : Grid :=
  let bbox := value.bounding_box
  let vx1_i := point2voxel voxelLen bbox.1
  let vx2_i := point2voxel voxelLen bbox.2
  let g1 := gridAppend g vx1_i value
  if vx1_i ≠ vx2_i then gridAppend g1 vx2_i value else g1

/-- Embedding of the optimized
`GridPlacementHelper<MorphoEntry>::insert(gid, segment_i, p1, p2, radius)`
(detail/index_grid.hpp:58-71): voxelize the RAW endpoints `p1` and `p2`
(not the bounding-box corners), push the constructed `Segment` under `p1`'s
key, and also under `p2`'s key if the keys differ. -/
def insertSegmentOpt (voxelLen : ℕ) (gid segment_i : ℕ) (p1 p2 : Pt)
    (radius : ℚ) (g : Grid) : Grid :=
  let vx1_i := point2voxel voxelLen p1
  let vx2_i := point2voxel voxelLen p2
  let e := MorphoEntryQ.seg ⟨gid, segment_i, ⟨p1, p2, radius⟩⟩
  let g1 := gridAppend g vx1_i e
  if vx1_i ≠ vx2_i then gridAppend g1 vx2_i e else g1

/-- The claim's description of grid insertion, stated separately for
comparison (refinement): compute the entity's bounding box, map the min
corner and the max corner to voxel keys, append once under the min-corner
key, and append a second time under the max-corner key iff the keys
differ. -/
def claimedGridInsert (voxelLen : ℕ) (value : MorphoEntryQ) (g : Grid) : Grid :=
  let kmin := point2voxel voxelLen value.bounding_box.1
  let kmax := point2voxel voxelLen value.bounding_box.2
  let g1 := gridAppend g kmin value
  if kmin ≠ kmax then gridAppend g1 kmax value else g1

/-!
Distributed sort-tile-recursion, from detail/distributed_sort_tile_recursion.hpp.
-/

/-- Embedding of `int_log2` (declared in `util.hpp`, not among the sources;
for the powers of two the callers feed it, it is the base-2 logarithm). -/
def int_log2 (n : ℕ) : ℕ := Nat.log2 n

/-- Embedding of `int_pow2` (declared in `util.hpp`, not among the sources). -/
def int_pow2 (k : ℕ) : ℕ := 2 ^ k

/-- The loop of `rank_distribution` (detail/distributed_sort_tile_recursion.hpp:66-70):
starting from `{0, 0, 0}`, `dist[k % 3] += 1` for `k = 0, ..., log2_n - 1`
(the recursion adds the step-`k` increment on top of the first `k` ones; the
order of the commuting increments is immaterial). -/
def rank_counts : ℕ → ℕ × ℕ × ℕ
  | 0 => (0, 0, 0)
  | k + 1 =>
    let d := rank_counts k
    match k % 3 with
    | 0 => (d.1 + 1, d.2.1, d.2.2)
    | 1 => (d.1, d.2.1 + 1, d.2.2)
    | _ => (d.1, d.2.1, d.2.2 + 1)

/-- Embedding of `rank_distribution(comm_size)`
(detail/distributed_sort_tile_recursion.hpp:63-78): distribute the
`log2(comm_size)` factors of two round-robin over the three axes, then raise
2 to each count. -/
def rank_distribution (comm_size : ℕ) : ℕ × ℕ × ℕ :=
  let d := rank_counts (int_log2 comm_size)
  (int_pow2 d.1, int_pow2 d.2.1, int_pow2 d.2.2)

/-- The observable effects of `distributed_partition` in program order:
collective operations of the distributed STR, per-partition subtree saves,
the bounding-box gather, and the top-tree save. -/
inductive STREffect where
  | sort_and_balance (dim : ℕ)
  | comm_split (dim : ℕ)
  | save_subtree (key : ℕ)
  | gather_bounding_boxes
  | save_top_tree
deriving DecidableEq

/-- The error thrown by `distributed_partition` when the local input is too
small (`"Too few elements."`; the spec's `InsufficientElements`). -/
inductive STRError where
  | InsufficientElements
deriving DecidableEq

/-- Effect trace of `DistributedSortTileRecursion::apply` for dims 0, 1, 2
(detail/distributed_sort_tile_recursion.hpp:158-178): each dim sorts and
balances, and dims 0 and 1 split the communicator and recurse; dim 2 does
not split. -/
def distributed_str_effects : List STREffect :=
  [.sort_and_balance 0, .comm_split 0, .sort_and_balance 1, .comm_split 1,
   .sort_and_balance 2]

/-- Embedding of the control flow of `distributed_partition`
(detail/distributed_sort_tile_recursion.hpp:102-155). The MPI and storage
collaborators are external interfaces (not under src/), so the run is
modelled by its error outcome plus the ordered trace of effects it performs:
the size guard is the FIRST statement, so a failing run performs no effect;
a successful run performs the distributed STR collectives, one
`save_subtree(rank * n_serial_parts + k)` per serial partition `k`, the
bounding-box gather, and (on rank 0) the top-tree save. Only the length of
the local value vector is relevant to the guard. -/
def distributed_partition (n_local_values commSize rank n_serial_parts : ℕ) :
    Option STRError × List STREffect :=
  if n_local_values < 10 * commSize then (some .InsufficientElements, [])
  else
    (none,
      distributed_str_effects ++
        (List.range n_serial_parts).map
          (fun k => .save_subtree (rank * n_serial_parts + k)) ++
        [.gather_bounding_boxes] ++
        if rank = 0 then [.save_top_tree] else [])

/-!
Helper lemmas shared by the claim theorems.
-/

/-- Squared norm of a difference is symmetric in its endpoints. -/
theorem Pt.norm_sq_sub_comm (p q : Pt) : (p.sub q).norm_sq = (q.sub p).norm_sq := by
  simp only [Pt.sub, Pt.norm_sq]
  ring

/-- Dot product is commutative. -/
theorem Pt.dot_comm (p q : Pt) : p.dot q = q.dot p := by
  simp only [Pt.dot]
  ring

/-- Squared distance of a point to itself is zero. -/
theorem Pt.dist_sq_self (p : Pt) : p.dist_sq p = 0 := by
  simp [Pt.dist_sq, Pt.sub, Pt.norm_sq]

/-- Bitwise AND with a shifted all-ones mask extracts the corresponding bit
field: `x &&& ((2^k − 1) <<< a) = x / 2^a % 2^k * 2^a`. -/
theorem land_mask_shift (x k a : ℕ) :
    x &&& ((2 ^ k - 1) <<< a) = x / 2 ^ a % 2 ^ k * 2 ^ a := by
  have hr : x / 2 ^ a % 2 ^ k * 2 ^ a = ((x >>> a) % 2 ^ k) <<< a := by
    rw [Nat.shiftLeft_eq, Nat.shiftRight_eq_div_pow]
  rw [hr]
  refine Nat.eq_of_testBit_eq fun i => ?_
  rw [Nat.testBit_and, Nat.testBit_shiftLeft, Nat.testBit_shiftLeft,
    Nat.testBit_two_pow_sub_one, Nat.testBit_mod_two_pow, Nat.testBit_shiftRight]
  by_cases h : a ≤ i
  · have hai : a + (i - a) = i := by omega
    rw [hai]
    simp only [ge_iff_le, h, decide_True, Bool.true_and]
    cases x.testBit i <;> simp
  · have h2 : ¬ (i ≥ a) := h
    simp [h2]

/-- Unfolding of `mask_bits`. -/
theorem mask_bits_eq (n : ℕ) : mask_bits n = 2 ^ n - 1 := by
  rw [mask_bits, Nat.shiftLeft_eq, one_mul]

/-- The field-extraction characterization of the safety checks: with `x`
bounded by the machine word `2^w`, the check `x &&& ~mask_bits n == 0`
holds iff `x < 2^n`. -/
theorem safe_mask_iff (x w n : ℕ) (hnw : n ≤ w) (hx : x < 2 ^ w) :
    (x &&& (mask_bits w - mask_bits n) == 0) = true ↔ x < 2 ^ n := by
  have hBpos : 0 < (2 : ℕ) ^ n := Nat.pos_pow_of_pos n (by norm_num)
  have hsplit : (2 : ℕ) ^ (w - n) * 2 ^ n = 2 ^ w := by
    rw [← pow_add]
    congr 1
    omega
  have hm : mask_bits w - mask_bits n = ((2 ^ (w - n) - 1) <<< n) := by
    have h1 : (1 : ℕ) ≤ 2 ^ n := hBpos
    have h2 : (2 : ℕ) ^ n ≤ 2 ^ w := Nat.pow_le_pow_right (by norm_num) hnw
    rw [mask_bits_eq, mask_bits_eq, Nat.shiftLeft_eq, Nat.sub_mul, hsplit, one_mul]
    omega
  rw [hm, land_mask_shift, beq_iff_eq]
  have hd : x / 2 ^ n < 2 ^ (w - n) := by
    rw [Nat.div_lt_iff_lt_mul hBpos, hsplit]
    exact hx
  rw [Nat.mod_eq_of_lt hd, Nat.mul_eq_zero]
  constructor
  · intro h0
    rcases h0 with h0 | h0
    · rw [Nat.div_eq_zero_iff hBpos] at h0
      exact h0
    · omega
  · intro hlt
    exact Or.inl (Nat.div_eq_of_lt hlt)

/-- The round-robin loop counts: axis `j` receives `⌈(q − j)/3⌉` of the `q`
factors, i.e. `(q + 2 − j) / 3` in truncated natural arithmetic. -/
theorem rank_counts_eq (q : ℕ) :
    rank_counts q = ((q + 2) / 3, (q + 1) / 3, q / 3) := by
  induction q with
  | zero => rfl
  | succ k ih =>
    have h3 : k % 3 = 0 ∨ k % 3 = 1 ∨ k % 3 = 2 := by omega
    rcases h3 with h | h | h <;>
      simp only [rank_counts, ih, h] <;>
      refine congrArg₂ Prod.mk (by omega) (congrArg₂ Prod.mk (by omega) (by omega))

/-- Base-2 logarithm of a power of two. -/
theorem log2_two_pow (q : ℕ) : Nat.log2 (2 ^ q) = q := by
  induction q with
  | zero =>
    rw [pow_zero, Nat.log2]
    norm_num
  | succ k ih =>
    rw [Nat.log2]
    have h2 : 2 ≤ 2 ^ (k + 1) := by
      calc (2 : ℕ) = 2 ^ 1 := by norm_num
      _ ≤ 2 ^ (k + 1) := Nat.pow_le_pow_right (by norm_num) (by omega)
    rw [if_pos h2, pow_succ, Nat.mul_div_cancel _ (by norm_num), ih]

/-!
Claim theorems.
-/

/-- C5: for every power-of-two communicator size `R = 2^q`,
`rank_distribution` returns the axis triple
`(2^⌈q/3⌉, 2^⌈(q−1)/3⌉, 2^⌈(q−2)/3⌉)` — written in truncated natural
arithmetic as `(2^((q+2)/3), 2^((q+1)/3), 2^(q/3))`, which agrees with the
real-valued ceilings for every `q ≥ 0` — and the product of the three axis
factors is `R`. -/
theorem rank_distribution_spec (q : ℕ) :
    rank_distribution (2 ^ q) =
      (2 ^ ((q + 2) / 3), 2 ^ ((q + 1) / 3), 2 ^ (q / 3)) ∧
    2 ^ ((q + 2) / 3) * 2 ^ ((q + 1) / 3) * 2 ^ (q / 3) = 2 ^ q := by
  constructor
  · rw [rank_distribution, int_log2, log2_two_pow, rank_counts_eq]
    rfl
  · rw [← pow_add, ← pow_add]
    congr 1
    omega

/-- C6: `distributed_partition` fails with `InsufficientElements` exactly
when the local input holds fewer than `10 · commSize` entities, and in that
case its effect trace is empty, i.e. no sort, split, save or gather is
performed (conversely, a successful run always performs effects, so the
trace is empty iff the guard fired). -/
theorem distributed_partition_insufficient (n R rank P : ℕ) :
    ((distributed_partition n R rank P).1 = some .InsufficientElements ↔
      n < 10 * R) ∧
    ((distributed_partition n R rank P).2 = [] ↔ n < 10 * R) := by
  rw [distributed_partition]
  split
  · simp_all
  · simp_all [distributed_str_effects]

/-- C9: deserializing an `IndexedShape` record fails with `FutureFormat`
exactly when the record's structure version exceeds
`SPATIAL_INDEX_STRUCT_VERSION = 2`, and succeeds (returning both base
payloads) exactly when the version is at most 2. -/
theorem deserializeIndexedShape_version {A B : Type} (i : A) (s : B) (version : ℕ) :
    (deserializeIndexedShape version i s = .error .FutureFormat ↔
      SPATIAL_INDEX_STRUCT_VERSION < version) ∧
    (deserializeIndexedShape version i s = .ok (i, s) ↔
      version ≤ SPATIAL_INDEX_STRUCT_VERSION) := by
  rw [deserializeIndexedShape]
  split <;> constructor <;> simp_all [SPATIAL_INDEX_STRUCT_VERSION]

/-- C10: constructing a `SynapseId` from an id alone uses the defaulted
`post_gid = 0` and `pre_gid = 0`, and the (check-free, `noexcept`)
construction is total for every 64-bit id value. -/
theorem synapseId_default_gids (syn_id : ℕ) (_h : syn_id < 2 ^ 64) :
    (mkSynapseIdDefault syn_id).post_gid = 0 ∧
    (mkSynapseIdDefault syn_id).pre_gid = 0 :=
  ⟨rfl, rfl⟩

/-- Witness for C10 at the concrete id 123456789. -/
theorem synapseId_default_gids_witness :
    (mkSynapseIdDefault 123456789).post_gid = 0 ∧
    (mkSynapseIdDefault 123456789).pre_gid = 0 :=
  synapseId_default_gids 123456789 (by norm_num)

/-- C8 counterexample: point equality is NOT symmetric, because the source
compares the squared distance against a tolerance relative to the squared
norm of the LEFT operand. At `p = (1,0,0)` and `q = (1 − 99995/10⁹, 0, 0)`
the squared distance lies between `10⁻⁸·‖q‖²` and `10⁻⁸·‖p‖²`, so
`p == q` holds while `q == p` does not (which also refutes the claim's
tolerance being one on the squared distance alone). -/
theorem pointEq_not_symmetric :
    pointEq ⟨1, 0, 0⟩ ⟨1 - 99995 / 10 ^ 9, 0, 0⟩ = true ∧
    pointEq ⟨1 - 99995 / 10 ^ 9, 0, 0⟩ ⟨1, 0, 0⟩ = false := by
  constructor
  · rw [pointEq]
    norm_num [Pt.dist_sq, Pt.sub, Pt.norm_sq]
  · rw [pointEq]
    norm_num [Pt.dist_sq, Pt.sub, Pt.norm_sq]

/-- C8 (amended): `p == q` returns true iff the squared distance between `p`
and `q` is zero or is less than `10⁻⁸` times the squared norm of the left
operand `p`; the relation is reflexive (but not symmetric, see the
counterexample). -/
theorem pointEq_characterization (p q : Pt) :
    (pointEq p q = true ↔
      (p.dist_sq q = 0 ∨ p.dist_sq q < p.norm_sq * (1 / 10 ^ 8))) ∧
    pointEq p p = true := by
  constructor
  · rw [pointEq]
    by_cases h : p.dist_sq q = 0 <;> simp [h]
  · rw [pointEq, if_pos (Pt.dist_sq_self p)]

/-- C7 counterexample: the optimized segment overload does not key the
voxels by the bounding-box corners. For the degenerate segment at
`(1,1,1)–(1,1,1)` with radius `3/2` and voxel length 2, the claimed
behavior stores the entity under the bounding-box corner keys
`(-1,-1,-1)` and `(1,1,1)`, while the optimized overload stores it only
under the endpoint key `(0,0,0)`; the two resulting grids differ at key
`(0,0,0)`. -/
theorem gridInsert_optimized_counterexample :
    insertSegmentOpt 2 1 0 ⟨1, 1, 1⟩ ⟨1, 1, 1⟩ (3 / 2) emptyGrid (0, 0, 0) ≠
      claimedGridInsert 2
        (MorphoEntryQ.seg ⟨1, 0, ⟨⟨1, 1, 1⟩, ⟨1, 1, 1⟩, 3 / 2⟩⟩)
        emptyGrid (0, 0, 0) := by
  have h1 : insertSegmentOpt 2 1 0 ⟨1, 1, 1⟩ ⟨1, 1, 1⟩ (3 / 2) emptyGrid (0, 0, 0) =
      [MorphoEntryQ.seg ⟨1, 0, ⟨⟨1, 1, 1⟩, ⟨1, 1, 1⟩, 3 / 2⟩⟩] := by
    with_unfolding_all rfl
  have h2 : claimedGridInsert 2
      (MorphoEntryQ.seg ⟨1, 0, ⟨⟨1, 1, 1⟩, ⟨1, 1, 1⟩, 3 / 2⟩⟩)
      emptyGrid (0, 0, 0) = [] := by
    with_unfolding_all rfl
  rw [h1, h2]
  simp

/-- C7 (amended): the generic `insert(entity)` overload behaves exactly as
claimed (bounding-box min-corner key, plus the max-corner key iff the keys
differ), but the optimized segment overload derives both voxel keys from
the RAW endpoints `p1` and `p2` (ignoring the radius and the bounding box):
it appends the constructed `Segment` under `p1`'s key and appends it a
second time under `p2`'s key iff the two keys differ. -/
theorem gridInsert_characterization (voxelLen gid segment_i : ℕ)
    (p1 p2 : Pt) (radius : ℚ) (e : MorphoEntryQ) (g : Grid) :
    insertMorphoEntry voxelLen e g = claimedGridInsert voxelLen e g ∧
    insertSegmentOpt voxelLen gid segment_i p1 p2 radius g =
      (if point2voxel voxelLen p1 ≠ point2voxel voxelLen p2 then
        gridAppend
          (gridAppend g (point2voxel voxelLen p1)
            (MorphoEntryQ.seg ⟨gid, segment_i, ⟨p1, p2, radius⟩⟩))
          (point2voxel voxelLen p2)
          (MorphoEntryQ.seg ⟨gid, segment_i, ⟨p1, p2, radius⟩⟩)
      else
        gridAppend g (point2voxel voxelLen p1)
          (MorphoEntryQ.seg ⟨gid, segment_i, ⟨p1, p2, radius⟩⟩)) :=
  ⟨rfl, rfl⟩

/-- C2 counterexample: `Cylinder::intersects(Cylinder)` is NOT symmetric.
The two cylinders have nearly antiparallel axes (`D = 10⁻⁸ < ε = 10⁻⁶`), so
`distance_segment_segment` takes the almost-parallel fallback that pins
`s = 0` on the FIRST segment: one orientation computes squared distance 1,
the other `≈ 1.00012`, and with radii summing to `1.00001` exactly one
orientation reports an intersection. The machine epsilon argument is the
single-precision `2⁻²³ = 1/8388608` (irrelevant to the cylinder-cylinder
path). -/
theorem cylinder_intersects_not_symmetric :
    GeometryEntry.intersects (1 / 8388608)
        (.cyl ⟨⟨0, 0, 0⟩, ⟨1, 0, 0⟩, 1 / 2⟩)
        (.cyl ⟨⟨3 / 5, 1, 0⟩, ⟨-2 / 5, 1 + 1 / 10000, 0⟩, 50001 / 100000⟩) = false ∧
    GeometryEntry.intersects (1 / 8388608)
        (.cyl ⟨⟨3 / 5, 1, 0⟩, ⟨-2 / 5, 1 + 1 / 10000, 0⟩, 50001 / 100000⟩)
        (.cyl ⟨⟨0, 0, 0⟩, ⟨1, 0, 0⟩, 1 / 2⟩) = true := by
  constructor
  · with_unfolding_all rfl
  · with_unfolding_all rfl

/-- C2 (amended): the intersection kernel is reflection-symmetric for every
pair in which at least one operand is a `Sphere` (sphere-sphere by
commutativity of the distance test, sphere-cylinder by delegation); for
cylinder-cylinder pairs symmetry can fail when the axes are nearly parallel
(the `ε = 10⁻⁶` fallback of the segment-segment distance pins `s = 0` on
the first segment), see the counterexample. -/
theorem intersects_symmetric_with_sphere (eps : ℚ) (A B : GeometryEntry)
    (h : A.isSph = true ∨ B.isSph = true) :
    GeometryEntry.intersects eps A B = GeometryEntry.intersects eps B A := by
  cases A with
  | sph a =>
    cases B with
    | sph b =>
      simp only [GeometryEntry.intersects, Sphere.intersectsSphere]
      rw [add_comm a.radius b.radius, Pt.norm_sq_sub_comm a.centroid b.centroid]
    | cyl b => rfl
  | cyl a =>
    cases B with
    | sph b => rfl
    | cyl b => simp [GeometryEntry.isSph] at h

/-- Witness for the amended C2 at a concrete sphere-cylinder pair. -/
theorem intersects_symmetric_with_sphere_witness :
    GeometryEntry.intersects 1 (.sph ⟨⟨0, 0, 0⟩, 1⟩)
        (.cyl ⟨⟨2, 0, 0⟩, ⟨3, 0, 0⟩, 1⟩) =
      GeometryEntry.intersects 1 (.cyl ⟨⟨2, 0, 0⟩, ⟨3, 0, 0⟩, 1⟩)
        (.sph ⟨⟨0, 0, 0⟩, 1⟩) :=
  intersects_symmetric_with_sphere 1 (.sph ⟨⟨0, 0, 0⟩, 1⟩)
    (.cyl ⟨⟨2, 0, 0⟩, ⟨3, 0, 0⟩, 1⟩) (Or.inl rfl)

/-- C3: containment implies intersection with a zero-radius sphere. For any
entity `E` among {Sphere, Cylinder} with the data-model invariant
`radius ≥ 0`, and any point `p` with `E.contains(p)`, the zero-radius sphere
at `p` intersects `E`. For the cylinder case the flat-capped `contains`
forces the axial parameter into `[0, v·v]`, which is exactly the infinite-
cylinder branch of the capsule test, and both compare the same squared
distance from the axis against the same bound. -/
theorem contains_implies_zero_sphere_intersects (eps : ℚ) (E : GeometryEntry)
    (p : Pt) (hr : 0 ≤ E.radius) (hc : E.containsPt p = true) :
    GeometryEntry.intersects eps (.sph ⟨p, 0⟩) E = true := by
  cases E with
  | sph s =>
    simp only [GeometryEntry.containsPt, Sphere.contains, decide_eq_true_eq] at hc
    simp only [GeometryEntry.radius] at hr
    simp only [GeometryEntry.intersects, Sphere.intersectsSphere, zero_add,
      Bool.and_eq_true, decide_eq_true_eq]
    exact ⟨hr, hc⟩
  | cyl c =>
    simp only [GeometryEntry.containsPt, Cylinder.contains] at hc
    simp only [GeometryEntry.radius] at hr
    by_cases hcond : (p.sub c.p1).dot (c.p2.sub c.p1) < 0 ∨
        (p.sub c.p1).dot (c.p2.sub c.p1) > (c.p2.sub c.p1).norm_sq
    · rw [if_pos hcond] at hc
      exact absurd hc (by simp)
    · rw [if_neg hcond] at hc
      rw [decide_eq_true_eq] at hc
      push_neg at hcond
      have hdc : sphCylVdotU ⟨p, 0⟩ c = (p.sub c.p1).dot (c.p2.sub c.p1) := by
        simp only [sphCylVdotU, sphCylU, sphCylV]
        exact Pt.dot_comm _ _
      have hvv : sphCylVdotV c = (c.p2.sub c.p1).norm_sq := rfl
      have hu : sphCylU ⟨p, 0⟩ c = p.sub c.p1 := rfl
      simp only [GeometryEntry.intersects, Sphere.intersectsCylinder]
      rw [if_pos ?hbranch]
      case hbranch =>
        rw [hdc, hvv]
        exact ⟨hcond.1, hcond.2⟩
      rw [hdc, hvv, hu, zero_add, decide_eq_true_eq]
      exact hc

/-- Witness for C3: the point `(0,0,1)` on the axis of the cylinder
`(0,0,0)–(0,0,2)` of radius 1 is contained in it, and the zero-radius sphere
there intersects the capsule. -/
theorem contains_implies_zero_sphere_intersects_witness :
    GeometryEntry.intersects 1 (.sph ⟨⟨0, 0, 1⟩, 0⟩)
      (.cyl ⟨⟨0, 0, 0⟩, ⟨0, 0, 2⟩, 1⟩) = true :=
  contains_implies_zero_sphere_intersects 1 (.cyl ⟨⟨0, 0, 0⟩, ⟨0, 0, 2⟩, 1⟩)
    ⟨0, 0, 1⟩ (by norm_num [GeometryEntry.radius])
    (by with_unfolding_all rfl)

/-- C4: in `Sphere::intersects(Cylinder)`, whenever the axial projection
`t = v·u` falls outside `[0, v·v]` (hypothesis `h1`), the quick rejection
does not fire (`h2`), and the axial offset `d` is degenerate
(`‖d‖ < 100·ε`, hypothesis `h3`, stated on the squares), the predicate
bypasses the projection onto the cap diameter segment and accepts iff the
squared distance from the sphere center to the closer cap CENTER is at most
the square of the sphere's radius. -/
theorem sphere_capsule_degenerate (eps : ℚ) (s : Sphere) (c : Cylinder)
    (h1 : ¬ (0 ≤ sphCylVdotU s c ∧ sphCylVdotU s c ≤ sphCylVdotV c))
    (h2 : ¬ ((s.centroid.sub (sphCylCloserCap s c)).norm_sq >
      (s.radius + c.radius) * (s.radius + c.radius)))
    (h3 : (sphCylD s c).norm_sq < (100 * eps) * (100 * eps)) :
    Sphere.intersectsCylinder eps s c =
      decide ((s.centroid.sub (sphCylCloserCap s c)).norm_sq ≤
        s.radius * s.radius) := by
  rw [Sphere.intersectsCylinder, if_neg h1, if_neg h2, if_pos h3]

/-- Witness for C4: a sphere centered on the axis beyond the far cap
(`t = 3 > v·v = 1`, `d = 0`), tangent to the cap center. -/
theorem sphere_capsule_degenerate_witness :
    Sphere.intersectsCylinder 1 ⟨⟨0, 0, 3⟩, 2⟩ ⟨⟨0, 0, 0⟩, ⟨0, 0, 1⟩, 1⟩ =
      decide ((Pt.sub ⟨0, 0, 3⟩
          (sphCylCloserCap ⟨⟨0, 0, 3⟩, 2⟩ ⟨⟨0, 0, 0⟩, ⟨0, 0, 1⟩, 1⟩)).norm_sq ≤
        2 * 2) :=
  sphere_capsule_degenerate 1 ⟨⟨0, 0, 3⟩, 2⟩ ⟨⟨0, 0, 0⟩, ⟨0, 0, 1⟩, 1⟩
    (of_decide_eq_false (by with_unfolding_all rfl))
    (of_decide_eq_false (by with_unfolding_all rfl))
    (of_decide_eq_true (by with_unfolding_all rfl))

/-- C1: the `MorphPartId` constructor, on components within their machine
integer types (`gid < 2^64`, `section_id, segment_id < 2^32`), succeeds
exactly on the field widths `gid < 2^36`, `section_id < 2^14`,
`segment_id < 2^14`, and then the three accessors recover the components;
outside those bounds construction fails with an `InvalidIdentifier` domain
error (one of the three `IdError` kinds) and produces no `MorphPartId`. -/
theorem morphPartId_constructor_spec (gid section_id segment_id : ℕ)
    (hg : gid < 2 ^ 64) (hsec : section_id < 2 ^ 32) (hseg : segment_id < 2 ^ 32) :
    (gid < 2 ^ 36 ∧ section_id < 2 ^ 14 ∧ segment_id < 2 ^ 14 →
      ∃ m : MorphPartId, mkMorphPartId gid section_id segment_id = .ok m ∧
        m.gid = gid ∧ m.section_id = section_id ∧ m.segment_id = segment_id) ∧
    (¬ (gid < 2 ^ 36 ∧ section_id < 2 ^ 14 ∧ segment_id < 2 ^ 14) →
      ∃ err, mkMorphPartId gid section_id segment_id = .error err) := by
  have hNg : N_GID_BITS = 36 := rfl
  have hNsec : N_SECTION_BITS = 14 := rfl
  have hNsegb : N_SEGMENT_BITS = 14 := rfl
  have hNtot : N_TOTAL_BITS = 28 := rfl
  have hgs : is_gid_safe gid = true ↔ gid < 2 ^ 36 := by
    rw [is_gid_safe, hNg]
    exact safe_mask_iff gid 64 36 (by norm_num) hg
  have hsecs : is_section_id_safe section_id = true ↔ section_id < 2 ^ 14 := by
    rw [is_section_id_safe, hNsec]
    exact safe_mask_iff section_id 32 14 (by norm_num) hsec
  have hsegs : is_segment_id_safe segment_id = true ↔ segment_id < 2 ^ 14 := by
    rw [is_segment_id_safe, hNsegb]
    exact safe_mask_iff segment_id 32 14 (by norm_num) hseg
  have p14 : (2 : ℕ) ^ 14 = 16384 := by norm_num
  have p28 : (2 : ℕ) ^ 28 = 268435456 := by norm_num
  constructor
  · rintro ⟨h1, h2, h3⟩
    rw [mkMorphPartId, if_pos]
    case hc =>
      rw [Bool.and_eq_true, Bool.and_eq_true]
      exact ⟨⟨hgs.mpr h1, hsecs.mpr h2⟩, hsegs.mpr h3⟩
    rw [p14] at h2 h3
    refine ⟨_, rfl, ?_, ?_, ?_⟩
    · rw [MorphPartId.gid, hNtot, hNsegb, Nat.shiftRight_eq_div_pow,
        Nat.shiftLeft_eq, Nat.shiftLeft_eq, p14, p28]
      dsimp only
      omega
    · rw [MorphPartId.section_id, MASK_SECTION_BITS, mask_bits_eq, hNtot, hNsec,
        hNsegb, Nat.shiftLeft_eq, Nat.shiftLeft_eq, land_mask_shift,
        Nat.shiftRight_eq_div_pow, Nat.mul_div_cancel _ (by positivity), p14, p28]
      dsimp only
      omega
    · rw [MorphPartId.segment_id, MASK_SEGMENT_BITS, mask_bits_eq, hNtot,
        hNsegb, Nat.shiftLeft_eq, Nat.shiftLeft_eq,
        Nat.and_pow_two_sub_one_eq_mod, p14, p28]
      dsimp only
      omega
  · intro h
    have hb : (is_gid_safe gid && is_section_id_safe section_id &&
        is_segment_id_safe segment_id) = false := by
      by_contra hb2
      rw [Bool.not_eq_false, Bool.and_eq_true, Bool.and_eq_true] at hb2
      exact h ⟨hgs.mp hb2.1.1, hsecs.mp hb2.1.2, hsegs.mp hb2.2⟩
    rw [mkMorphPartId, if_neg (by simp [hb])]
    split
    · exact ⟨_, rfl⟩
    · split
      · exact ⟨_, rfl⟩
      · exact ⟨_, rfl⟩

/-- Witness for C1 at the in-range triple `(5, 3, 7)`: construction succeeds
and the accessors round-trip. -/
theorem morphPartId_constructor_spec_witness :
    (5 < 2 ^ 36 ∧ 3 < 2 ^ 14 ∧ 7 < 2 ^ 14 →
      ∃ m : MorphPartId, mkMorphPartId 5 3 7 = .ok m ∧
        m.gid = 5 ∧ m.section_id = 3 ∧ m.segment_id = 7) ∧
    (¬ (5 < 2 ^ 36 ∧ 3 < 2 ^ 14 ∧ 7 < 2 ^ 14) →
      ∃ err, mkMorphPartId 5 3 7 = .error err) :=
  morphPartId_constructor_spec 5 3 7 (by norm_num) (by norm_num) (by norm_num)

end SpatialIndex
